import Mathlib

/-!
Verification development for the chat-ui CORS proxy server
(`chat-ui/server.py`): a shallow embedding of its request handling
(`end_headers`, `do_OPTIONS`, `do_POST`, `proxy_to_flowise`) together with
the pieces of library behaviour the handler invokes (`json.dumps` on a
two-key dict of strings, `bytes.decode` with UTF-8 and errors ignored,
`int(...)` on header strings, `send_error`), and theorems settling the
specification claims about it.

Bodies are modelled as lists of bytes (`List UInt8`), header blocks as the
ordered list of `(name, value)` pairs the handler emits, and the upstream
exchange as an explicit outcome value mirroring what `urllib.request.urlopen`
either returns or raises.
-/

namespace ChatUI

/-- The opening brace character, written by code point. -/
def lbrace : Char := Char.ofNat 123

/-- The closing brace character, written by code point. -/
def rbrace : Char := Char.ofNat 125

/-- The single-quote character, written by code point. -/
def squote : Char := Char.ofNat 39

/-- Lower-case hexadecimal digit for a value below 16. -/
def hexDigitChar (n : Nat) : Char :=
  if n < 10 then Char.ofNat (48 + n) else Char.ofNat (87 + n)

/-- Four lower-case hex digits of a value below 0x10000, most significant first. -/
def toHex4 (n : Nat) : List Char :=
  [hexDigitChar (n / 4096 % 16), hexDigitChar (n / 256 % 16),
   hexDigitChar (n / 16 % 16), hexDigitChar (n % 16)]

/-- UTF-8 encoding of one character (the encoding used by `str.encode()`
for the pure-ASCII strings the server writes, and by our byte model of
string bodies generally). -/
def utf8EncodeChar (c : Char) : List UInt8 :=
  let n := c.toNat
  if n < 0x80 then [UInt8.ofNat n]
  else if n < 0x800 then
    [UInt8.ofNat (0xc0 + n / 64), UInt8.ofNat (0x80 + n % 64)]
  else if n < 0x10000 then
    [UInt8.ofNat (0xe0 + n / 4096), UInt8.ofNat (0x80 + n / 64 % 64),
     UInt8.ofNat (0x80 + n % 64)]
  else
    [UInt8.ofNat (0xf0 + n / 262144), UInt8.ofNat (0x80 + n / 4096 % 64),
     UInt8.ofNat (0x80 + n / 64 % 64), UInt8.ofNat (0x80 + n % 64)]

/-- Bytes of a string under UTF-8, as produced by Python `str.encode()`. -/
def strToBytes (s : String) : List UInt8 :=
  s.data.flatMap utf8EncodeChar

/-- Whether a byte is a UTF-8 continuation byte (0x80..0xbf). -/
def isCont (b : UInt8) : Bool := 0x80 ≤ b && b ≤ 0xbf

/-- Valid range of the first continuation byte after a three-byte lead:
0xe0 forbids overlong encodings, 0xed forbids surrogates. -/
def cont3ok (lead b1 : UInt8) : Bool :=
  if lead = 0xe0 then 0xa0 ≤ b1 && b1 ≤ 0xbf
  else if lead = 0xed then 0x80 ≤ b1 && b1 ≤ 0x9f
  else isCont b1

/-- Valid range of the first continuation byte after a four-byte lead:
0xf0 forbids overlong encodings, 0xf4 caps at U+10FFFF. -/
def cont4ok (lead b1 : UInt8) : Bool :=
  if lead = 0xf0 then 0x90 ≤ b1 && b1 ≤ 0xbf
  else if lead = 0xf4 then 0x80 ≤ b1 && b1 ≤ 0x8f
  else isCont b1

/-- UTF-8 decoding with invalid sequences dropped, as performed by
Python `bytes.decode("utf-8", errors="ignore")`: on an invalid sequence the
maximal subpart consumed so far is skipped and decoding resumes at the
offending byte; a truncated sequence at the end of input is skipped. -/
def utf8DecodeIgnore : List UInt8 → List Char
  | [] => []
  | b :: rest =>
    if b ≤ 0x7f then Char.ofNat b.toNat :: utf8DecodeIgnore rest
    else if 0xc2 ≤ b && b ≤ 0xdf then
      match rest with
      | [] => []
      | b1 :: r1 =>
        if isCont b1 then
          Char.ofNat ((b.toNat - 0xc0) * 64 + (b1.toNat - 0x80)) :: utf8DecodeIgnore r1
        else utf8DecodeIgnore (b1 :: r1)
    else if 0xe0 ≤ b && b ≤ 0xef then
      match rest with
      | [] => []
      | b1 :: r1 =>
        if cont3ok b b1 then
          match r1 with
          | [] => []
          | b2 :: r2 =>
            if isCont b2 then
              Char.ofNat ((b.toNat - 0xe0) * 4096 + (b1.toNat - 0x80) * 64
                  + (b2.toNat - 0x80)) :: utf8DecodeIgnore r2
            else utf8DecodeIgnore (b2 :: r2)
        else utf8DecodeIgnore (b1 :: r1)
    else if 0xf0 ≤ b && b ≤ 0xf4 then
      match rest with
      | [] => []
      | b1 :: r1 =>
        if cont4ok b b1 then
          match r1 with
          | [] => []
          | b2 :: r2 =>
            if isCont b2 then
              match r2 with
              | [] => []
              | b3 :: r3 =>
                if isCont b3 then
                  Char.ofNat ((b.toNat - 0xf0) * 262144 + (b1.toNat - 0x80) * 4096
                      + (b2.toNat - 0x80) * 64 + (b3.toNat - 0x80)) :: utf8DecodeIgnore r3
                else utf8DecodeIgnore (b3 :: r3)
            else utf8DecodeIgnore (b2 :: r2)
        else utf8DecodeIgnore (b1 :: r1)
    else utf8DecodeIgnore rest
  termination_by l => l.length
  decreasing_by all_goals (simp_wf <;> omega)

/-- JSON escaping of one character exactly as `json.dumps` (default
`ensure_ascii=True`) does: short escapes for quote, backslash and the five
named control characters, `\u00xx` for the other control characters,
printable ASCII verbatim, and `\uxxxx` (a surrogate pair beyond U+FFFF)
for every character outside 0x20..0x7e. -/
def jsonEscapeChar (c : Char) : List Char :=
  if c = '"' then ['\\', '"']
  else if c = '\\' then ['\\', '\\']
  else if c = Char.ofNat 8 then ['\\', 'b']
  else if c = Char.ofNat 9 then ['\\', 't']
  else if c = Char.ofNat 10 then ['\\', 'n']
  else if c = Char.ofNat 12 then ['\\', 'f']
  else if c = Char.ofNat 13 then ['\\', 'r']
  else if c.toNat < 0x20 || 0x7e < c.toNat then
    if c.toNat ≤ 0xffff then '\\' :: 'u' :: toHex4 c.toNat
    else
      ('\\' :: 'u' :: toHex4 (0xd800 + (c.toNat - 0x10000) / 1024))
        ++ ('\\' :: 'u' :: toHex4 (0xdc00 + (c.toNat - 0x10000) % 1024))
  else [c]

/-- Characters of the body of the JSON string literal encoding `s`. -/
def jsonStrBody (s : String) : List Char :=
  s.data.flatMap jsonEscapeChar

/-- Opening of the serialized error object, through the quote that starts
the value of the `error` key. -/
def errHead : List Char :=
  lbrace :: '"' :: ("error").data ++ ['"', ':', ' ', '"']

/-- Middle of the serialized error object, from the separator after the
`error` value through the quote that starts the value of the `details` key. -/
def detailsMid : List Char :=
  ',' :: ' ' :: '"' :: ("details").data ++ ['"', ':', ' ', '"']

/-- The serialization `json.dumps` produces for the dict
`{"error": e, "details": d}` with its default separators. -/
def jsonDumpsErr (e d : String) : String :=
  String.mk (errHead ++ jsonStrBody e ++ '"' :: detailsMid ++ jsonStrBody d ++ ['"', rbrace])

/-- ASCII whitespace stripped by Python `int(str)` before parsing (the
ASCII fragment of the whitespace Python accepts). -/
def isPySpace (c : Char) : Bool :=
  c == ' ' || c == Char.ofNat 9 || c == Char.ofNat 10 || c == Char.ofNat 11 ||
    c == Char.ofNat 12 || c == Char.ofNat 13

/-- Digit run of a Python integer literal after its first digit: further
digits, with single underscores allowed only between digits. The flag
records whether the previous character was an underscore (which must be
followed by a digit). -/
def digitsTail (afterUnderscore : Bool) (acc : Nat) : List Char → Option Nat
  | [] => if afterUnderscore then none else some acc
  | c :: rest =>
    if c.isDigit then digitsTail false (acc * 10 + (c.toNat - 48)) rest
    else if c = '_' && !afterUnderscore then digitsTail true acc rest
    else none

/-- Digit run of a Python integer literal: at least one digit, underscores
only between digits. -/
def digitsVal : List Char → Option Nat
  | [] => none
  | c :: rest => if c.isDigit then digitsTail false (c.toNat - 48) rest else none

/-- Parsing done by Python `int(s)` for a decimal string (the ASCII
fragment: surrounding ASCII whitespace stripped, optional sign, decimal
digits with single underscores between digits); `none` when `int` raises
`ValueError`. -/
def pyIntOfString (s : String) : Option Int :=
  let core := ((s.data.dropWhile isPySpace).reverse.dropWhile isPySpace).reverse
  match core with
  | '+' :: rest => (digitsVal rest).map Int.ofNat
  | '-' :: rest => (digitsVal rest).map (fun n => -(n : Int))
  | rest => (digitsVal rest).map Int.ofNat

/-- Escaping of one character in Python `repr` of a string with quote
character `q`: backslash and the quote are escaped, tab, newline and
carriage return get short escapes, the other C0 controls and 0x7f become
`\xhh`; remaining characters are kept (printability analysis of non-ASCII
characters is outside the model). -/
def pyReprEscapeChar (q c : Char) : List Char :=
  if c = '\\' then ['\\', '\\']
  else if c = q then ['\\', q]
  else if c = Char.ofNat 9 then ['\\', 't']
  else if c = Char.ofNat 10 then ['\\', 'n']
  else if c = Char.ofNat 13 then ['\\', 'r']
  else if c.toNat < 0x20 || c.toNat = 0x7f then
    ['\\', 'x', hexDigitChar (c.toNat / 16 % 16), hexDigitChar (c.toNat % 16)]
  else [c]

/-- Python `repr` of a string: single-quoted, switching to double quotes
when the string contains a single quote but no double quote. -/
def pyStrRepr (s : String) : String :=
  let q := if s.data.contains squote && !(s.data.contains '"') then '"' else squote
  String.mk (q :: s.data.flatMap (pyReprEscapeChar q) ++ [q])

/-- Message of the `TypeError` raised by `int(None)` when the
`Content-Length` header is absent (`self.headers[...]` returns `None`). -/
def typeErrorNoneMsg : String :=
  "int() argument must be a string, a bytes-like object or a real number, not \x27NoneType\x27"

/-- Message of the `ValueError` raised by `int(s)` on an unparseable string. -/
def valueErrorMsg (s : String) : String :=
  "invalid literal for int() with base 10: " ++ pyStrRepr s

/-- Evaluation of `int(self.headers["Content-Length"])` in
`proxy_to_flowise`: the parsed length, or the message of the exception the
statement raises (caught by the handler as a generic failure). -/
def contentLengthVal : Option String → Except String Int
  | none => .error typeErrorNoneMsg
  | some s =>
    match pyIntOfString s with
    | none => .error (valueErrorMsg s)
    | some n => .ok n

/-- The bytes `self.rfile.read(n)` returns when `avail` is what the client
sent: up to `n` bytes for nonnegative `n`, everything for negative `n`. -/
def readBody (n : Int) (avail : List UInt8) : List UInt8 :=
  if n < 0 then avail else avail.take n.toNat

/-- String form of `urllib.error.HTTPError`
(`"HTTP Error %s: %s" % (code, reason)`). -/
def httpErrorStr (code : Nat) (reason : String) : String :=
  "HTTP Error " ++ toString code ++ ": " ++ reason

/-- String form of `urllib.error.URLError`
(`"<urlopen error %s>" % reason`). -/
def urlErrorStr (reason : String) : String :=
  "<urlopen error " ++ reason ++ ">"

/-- HTTP request method, restricted to the methods the handler defines
hooks for; `GET` stands for the static-file methods delegated to the base
class. -/
inductive Method
  | OPTIONS
  | POST
  | GET
deriving DecidableEq

/-- Inbound HTTP request as the handler consumes it: method, path, the
`Content-Length` header when present, and the raw body bytes sent by the
client. -/
structure Request where
  method : Method
  path : String
  contentLength : Option String
  body : List UInt8
deriving DecidableEq

/-- Outbound response as the handler emits it: status code set by
`send_response`, the ordered header pairs sent via `send_header` (including
those `end_headers` injects), and the body bytes written to `wfile`.
The response line and the automatic `Server`/`Date` headers added by the
base class are outside the model. -/
structure Response where
  status : Nat
  headers : List (String × String)
  body : List UInt8
deriving DecidableEq

/-- The request `urllib.request.Request(...)` built by `proxy_to_flowise`:
URL, HTTP method, header dict, request data. -/
structure OutboundRequest where
  url : String
  httpMethod : String
  headers : List (String × String)
  data : List UInt8
deriving DecidableEq

/-- Outcome of the upstream exchange `urllib.request.urlopen(req, timeout=60)`
followed by `response.read()`:
* `ok`: the call returned control, with the response body read (the client
  library returns control only on its success path);
* `httpError`: the upstream responded with a non-2xx status and urllib
  raised `urllib.error.HTTPError` carrying that status, its reason phrase
  and the error response body bytes;
* `urlError`: urllib raised `urllib.error.URLError` with the given reason
  text. urllib wraps in `URLError` only the `OSError`s raised while sending
  the request (`AbstractHTTPHandler.do_open` wraps `h.request(...)` alone),
  so this covers connection failures, DNS failures and a timeout expiring
  during connection establishment — not timeouts that fire later;
* `timeoutError`: the 60-second timeout expired after the request was sent
  (while waiting in `getresponse()` or reading the response), raising a
  bare `TimeoutError("timed out")`, which is not a `URLError` and falls
  through to the handler's generic `except`;
* `exc`: any other exception, with its string form. -/
inductive UpstreamOutcome
  | ok (body : List UInt8)
  | httpError (code : Nat) (reason : String) (body : List UInt8)
  | urlError (reason : String)
  | timeoutError
  | exc (msg : String)
deriving DecidableEq

/-- The three CORS headers `end_headers` injects into every response, in
the order they are sent, after any headers the handler itself sent. -/
def corsHeaders : List (String × String) :=
  [("Access-Control-Allow-Origin", "*"),
   ("Access-Control-Allow-Methods", "GET, POST, OPTIONS"),
   ("Access-Control-Allow-Headers", "Content-Type")]

/-- The fixed upstream endpoint constant `FLOWISE_API`. -/
def FLOWISE_API : String :=
  "https://app.c1elly.ai/api/v1/prediction/5f1fa57c-e6fd-463c-ac6e-c73fd5fb578b"

/-- Response built by the JSON-emitting paths of `proxy_to_flowise`:
`send_response(status)`, `send_header("Content-Type", "application/json")`,
`end_headers` (which appends the CORS headers), then the body written to
`wfile`. -/
def mkJsonResponse (status : Nat) (bodyStr : String) : Response :=
  { status := status
    headers := ("Content-Type", "application/json") :: corsHeaders
    body := strToBytes bodyStr }

/-- Escaping performed by `html.escape(s, quote=False)` on the message and
explanation interpolated into the error page. -/
def htmlEscapeChar (c : Char) : List Char :=
  if c = '&' then ('&' :: ("amp;").data)
  else if c = '<' then ('&' :: ("lt;").data)
  else if c = '>' then ('&' :: ("gt;").data)
  else [c]

/-- Content of `BaseHTTPRequestHandler.error_message_format`
(`DEFAULT_ERROR_MESSAGE`) instantiated with code, message and explanation. -/
def errorPageBody (code : Nat) (message explain : String) : String :=
  "<!DOCTYPE HTML>\n<html lang=\"en\">\n    <head>\n        <meta charset=\"utf-8\">\n        <title>Error response</title>\n    </head>\n    <body>\n        <h1>Error response</h1>\n        <p>Error code: " ++
    toString code ++
    "</p>\n        <p>Message: " ++
    String.mk (message.data.flatMap htmlEscapeChar) ++
    ".</p>\n        <p>Error code explanation: " ++
    toString code ++ " - " ++
    String.mk (explain.data.flatMap htmlEscapeChar) ++
    ".</p>\n    </body>\n</html>\n"

/-- Response produced by `BaseHTTPRequestHandler.send_error(code)` for a
non-HEAD request: `send_response(code)`, a `Connection: close` header, the
HTML error page with its `Content-Type` and `Content-Length` headers,
`end_headers` (which appends the CORS headers through the subclass
override), then the page body. -/
def send_error (code : Nat) (message explain : String) : Response :=
  let page := strToBytes (errorPageBody code message explain)
  { status := code
    headers := [("Connection", "close"),
                ("Content-Type", "text/html;charset=utf-8"),
                ("Content-Length", toString page.length)] ++ corsHeaders
    body := page }

/-- The 404 response `send_error(404)` produces in `do_POST` (message and
explanation are the defaults for `HTTPStatus.NOT_FOUND`). -/
def notFoundResponse : Response :=
  send_error 404 "Not Found" "Nothing matches the given URI"

/-- The proxy handler `proxy_to_flowise`, as a function of the inbound
request and the upstream outcome. Returns the response written to the
client together with the outbound request handed to `urlopen` (`none` when
the `try` block fails before the outbound request is built, i.e. on a
framing error). -/
def proxy_to_flowise (req : Request) (up : UpstreamOutcome) :
    Response × Option OutboundRequest :=
  match contentLengthVal req.contentLength with
  | .error msg =>
    (mkJsonResponse 500 (jsonDumpsErr "Internal server error" msg), none)
  | .ok n =>
    let post_data := readBody n req.body
    let out : OutboundRequest :=
      { url := FLOWISE_API
        httpMethod := "POST"
        headers := [("Content-Type", "application/json")]
        data := post_data }
    match up with
    | .ok body =>
      ({ status := 200
         headers := ("Content-Type", "application/json") :: corsHeaders
         body := body }, some out)
    | .httpError code reason ebody =>
      (mkJsonResponse code
        (jsonDumpsErr (httpErrorStr code reason)
          (String.mk (utf8DecodeIgnore ebody))), some out)
    | .urlError reason =>
      (mkJsonResponse 503 (jsonDumpsErr "Service unavailable" (urlErrorStr reason)),
        some out)
    | .timeoutError =>
      (mkJsonResponse 500 (jsonDumpsErr "Internal server error" "timed out"),
        some out)
    | .exc msg =>
      (mkJsonResponse 500 (jsonDumpsErr "Internal server error" msg), some out)

/-- A static file as the delegated `SimpleHTTPRequestHandler` machinery
resolves it: guessed content type and file bytes. -/
structure StaticFile where
  contentType : String
  content : List UInt8
deriving DecidableEq

/-- The delegated static file serving of `SimpleHTTPRequestHandler.do_GET`,
modelled at the level relevant to header injection: a found file is served
with 200, its content type and content length; a miss goes through
`send_error(404, "File not found")`. Both paths finalize their headers
through the overridden `end_headers`, which appends the CORS headers. -/
def serveStatic (fs : String → Option StaticFile) (path : String) : Response :=
  match fs path with
  | some f =>
    { status := 200
      headers := [("Content-Type", f.contentType),
                  ("Content-Length", toString f.content.length)] ++ corsHeaders
      body := f.content }
  | none => send_error 404 "File not found" "Nothing matches the given URI"

/-- The handler's `do_OPTIONS`: `send_response(200)` then `end_headers`,
which injects the CORS headers; no body is written. -/
def do_OPTIONS : Response :=
  { status := 200, headers := corsHeaders, body := [] }

/-- One full request dispatch of `CORSRequestHandler`: `do_OPTIONS` for
OPTIONS, `do_POST` for POST (proxy on `/api/chat`, `send_error(404)`
elsewhere), the delegated static serving for GET. The second component is
the outbound upstream request, `none` when no upstream call is attempted. -/
def handleRequest (fs : String → Option StaticFile) (req : Request)
    (up : UpstreamOutcome) : Response × Option OutboundRequest :=
  match req.method with
  | .OPTIONS => (do_OPTIONS, none)
  | .POST =>
    if req.path = "/api/chat" then proxy_to_flowise req up
    else (notFoundResponse, none)
  | .GET => (serveStatic fs req.path, none)

/-- The sequential accept loop of the listener: each connection is handled
in turn by a fresh handler instance; the only cross-request state is the
read-only configuration already baked into `handleRequest`. -/
def serveAll (fs : String → Option StaticFile) :
    List (Request × UpstreamOutcome) → List (Response × Option OutboundRequest)
  | [] => []
  | (req, up) :: rest => handleRequest fs req up :: serveAll fs rest

/-- Whether a character is a lower- or upper-case hexadecimal digit. -/
def isHexChar (c : Char) : Bool :=
  ('0' ≤ c && c ≤ '9') || ('a' ≤ c && c ≤ 'f') || ('A' ≤ c && c ≤ 'F')

/-- State of the JSON string literal recognizer: scanning normally, right
after a backslash, or expecting `k` more hex digits of a `\u` escape. -/
inductive StrMode
  | normal
  | escape
  | hex (k : Nat)
deriving DecidableEq

/-- Recognizer for the body of a JSON string literal, consuming one
character per step up to and past the closing quote: unescaped characters
must be outside the control range (quote and backslash are handled by
their own branches); escapes are the short named ones or `\u` with four
hex digits. Returns the remaining input after the closing quote, or `none`
when the input is not a well-formed literal body. -/
def chkStrBodyM : StrMode → List Char → Option (List Char)
  | .normal, [] => none
  | .normal, c :: rest =>
    if c = '"' then some rest
    else if c = '\\' then chkStrBodyM .escape rest
    else if 0x20 ≤ c.toNat then chkStrBodyM .normal rest
    else none
  | .escape, [] => none
  | .escape, e :: rest =>
    if e = '"' ∨ e = '\\' ∨ e = '/' ∨ e = 'b' ∨ e = 'f' ∨ e = 'n' ∨
        e = 'r' ∨ e = 't' then chkStrBodyM .normal rest
    else if e = 'u' then chkStrBodyM (.hex 4) rest
    else none
  | .hex _, [] => none
  | .hex k, c :: rest =>
    if isHexChar c then
      if k ≤ 1 then chkStrBodyM .normal rest else chkStrBodyM (.hex (k - 1)) rest
    else none

/-- Recognizer for a JSON string literal body starting in normal mode. -/
def chkStrBody (l : List Char) : Option (List Char) :=
  chkStrBodyM .normal l

/-- Strips an exact expected character sequence from the front of the
input, returning the remainder. -/
def stripPre : List Char → List Char → Option (List Char)
  | [], s => some s
  | c :: cs, d :: ds => if c = d then stripPre cs ds else none
  | _ :: _, [] => none

/-- Checks that a string is precisely the serialization of a JSON object
with exactly two members, a string under key `error` followed by a string
under key `details`, with `json.dumps` default separators — in particular
that it is valid JSON. -/
def isErrDetailsJson (s : String) : Bool :=
  (Option.isSome <| do
    let r1 ← stripPre errHead s.data
    let r2 ← chkStrBody r1
    let r3 ← stripPre detailsMid r2
    let r4 ← chkStrBody r3
    let r5 ← stripPre [rbrace] r4
    if r5 = [] then some () else none)

/-- Presence of the three CORS headers in a response. -/
def hasCors (r : Response) : Prop :=
  ("Access-Control-Allow-Origin", "*") ∈ r.headers ∧
  ("Access-Control-Allow-Methods", "GET, POST, OPTIONS") ∈ r.headers ∧
  ("Access-Control-Allow-Headers", "Content-Type") ∈ r.headers

/-- Whether the upstream call returned control normally (no exception). -/
def UpstreamOutcome.isOk : UpstreamOutcome → Bool
  | .ok _ => true
  | _ => false

/-- Whether evaluating `int(self.headers["Content-Length"])` succeeds. -/
def framingOk (cl : Option String) : Bool :=
  match contentLengthVal cl with
  | .ok _ => true
  | .error _ => false

/-! Concrete fixtures used to instantiate the theorems below. -/

/-- Static-file oracle with no files, for concrete instantiations. -/
def noFiles : String → Option StaticFile := fun _ => none

/-- A concrete OPTIONS request. -/
def reqOptions : Request :=
  { method := .OPTIONS, path := "/", contentLength := none, body := [] }

/-- The concrete chat request of the spec example: POST `/api/chat` with
body `\x7b"question":"hi"\x7d`. -/
def reqChat : Request :=
  { method := .POST
    path := "/api/chat"
    contentLength := some "17"
    body := strToBytes "\x7b\"question\":\"hi\"\x7d" }

/-- The upstream body of the spec example, `\x7b"text":"hello"\x7d`. -/
def upBodyHello : List UInt8 := strToBytes "\x7b\"text\":\"hello\"\x7d"

/-! Theorems settling the claims. -/

/-- C8: for every OPTIONS request on any path, the response has status 200,
an empty body and the three CORS headers, and no upstream interaction
occurs. -/
theorem options_preflight (fs : String → Option StaticFile) (req : Request)
    (up : UpstreamOutcome) (hm : req.method = .OPTIONS) :
    handleRequest fs req up =
      ({ status := 200, headers := corsHeaders, body := [] }, none) := by
  simp [handleRequest, hm, do_OPTIONS]

/-- Witness for C8 at a concrete OPTIONS request. -/
theorem options_preflight_witness :
    handleRequest noFiles reqOptions (.ok []) =
      ({ status := 200, headers := corsHeaders, body := [] }, none) :=
  options_preflight noFiles reqOptions (.ok []) rfl

/-- C1: for every POST to `/api/chat` whose upstream call succeeds, the
response has status 200, body byte-for-byte equal to the upstream response
body, and a `Content-Type: application/json` header (followed by the CORS
headers). -/
theorem proxy_success_relays (fs : String → Option StaticFile) (req : Request)
    (s : String) (n : Int) (body : List UInt8)
    (hm : req.method = .POST) (hp : req.path = "/api/chat")
    (hcl : req.contentLength = some s) (hn : pyIntOfString s = some n) :
    (handleRequest fs req (.ok body)).1 =
      { status := 200
        headers := ("Content-Type", "application/json") :: corsHeaders
        body := body } := by
  simp [handleRequest, hm, hp, proxy_to_flowise, contentLengthVal, hcl, hn]

/-- Witness for C1 at the spec's example request and upstream body. -/
theorem proxy_success_relays_witness :
    (handleRequest noFiles reqChat (.ok upBodyHello)).1 =
      { status := 200
        headers := ("Content-Type", "application/json") :: corsHeaders
        body := upBodyHello } :=
  proxy_success_relays noFiles reqChat "17" 17 upBodyHello rfl rfl rfl rfl

/-- C2: for every POST to `/api/chat` where the upstream responds with a
non-2xx status, the proxy responds with the upstream's own status code and
a JSON body whose `error` is the string form of the `HTTPError` and whose
`details` is the upstream response body decoded as UTF-8 with errors
ignored. -/
theorem proxy_http_error_mapping (fs : String → Option StaticFile) (req : Request)
    (s : String) (n : Int) (code : Nat) (reason : String) (ebody : List UInt8)
    (hm : req.method = .POST) (hp : req.path = "/api/chat")
    (hcl : req.contentLength = some s) (hn : pyIntOfString s = some n) :
    (handleRequest fs req (.httpError code reason ebody)).1.status = code ∧
    (handleRequest fs req (.httpError code reason ebody)).1.body =
      strToBytes (jsonDumpsErr (httpErrorStr code reason)
        (String.mk (utf8DecodeIgnore ebody))) := by
  simp [handleRequest, hm, hp, proxy_to_flowise, contentLengthVal, hcl, hn,
    mkJsonResponse]

/-- Witness for C2 at the spec's 429 rate-limit example. -/
theorem proxy_http_error_mapping_witness :
    (handleRequest noFiles reqChat
        (.httpError 429 "Too Many Requests" (strToBytes "\x7b\"msg\":\"rate limited\"\x7d"))).1.status
      = 429 ∧
    (handleRequest noFiles reqChat
        (.httpError 429 "Too Many Requests" (strToBytes "\x7b\"msg\":\"rate limited\"\x7d"))).1.body
      = strToBytes (jsonDumpsErr (httpErrorStr 429 "Too Many Requests")
          (String.mk (utf8DecodeIgnore (strToBytes "\x7b\"msg\":\"rate limited\"\x7d")))) :=
  proxy_http_error_mapping noFiles reqChat "17" 17 429 "Too Many Requests"
    (strToBytes "\x7b\"msg\":\"rate limited\"\x7d") rfl rfl rfl rfl

/-- Counterexample to C3 as stated: a concrete POST to `/api/chat` where
the 60-second timeout expires after the request was sent. The bare
`TimeoutError` is not a `URLError`, so the `URLError` handler misses it and
the generic handler answers 500 `Internal server error` — not the 503
`Service unavailable` the claim asserts for every timeout expiry. -/
theorem timeout_not_503 :
    (handleRequest noFiles reqChat .timeoutError).1.status = 500 ∧
    (handleRequest noFiles reqChat .timeoutError).1.status ≠ 503 ∧
    (handleRequest noFiles reqChat .timeoutError).1.body =
      strToBytes (jsonDumpsErr "Internal server error" "timed out") := by
  refine ⟨rfl, by decide, rfl⟩

/-- C3 (amended): for every POST to `/api/chat` where the upstream call
fails with a connection failure, a DNS failure, or a timeout expiring
during connection establishment — the failures urllib wraps in `URLError` —
the proxy responds 503 with `error` equal to `"Service unavailable"` and
`details` the string form of the network failure; a timeout expiring after
the request is sent raises a bare `TimeoutError` instead and yields 500
with `error` equal to `"Internal server error"` and `details` equal to
`"timed out"`. -/
theorem proxy_unreachable_or_timeout (fs : String → Option StaticFile)
    (req : Request) (s : String) (n : Int) (reason : String)
    (hm : req.method = .POST) (hp : req.path = "/api/chat")
    (hcl : req.contentLength = some s) (hn : pyIntOfString s = some n) :
    (handleRequest fs req (.urlError reason)).1 =
      mkJsonResponse 503 (jsonDumpsErr "Service unavailable" (urlErrorStr reason)) ∧
    (handleRequest fs req .timeoutError).1 =
      mkJsonResponse 500 (jsonDumpsErr "Internal server error" "timed out") := by
  constructor <;>
    simp [handleRequest, hm, hp, proxy_to_flowise, contentLengthVal, hcl, hn]

/-- Witness for C3 (amended) at a concrete connection-refused failure and a
concrete post-request timeout. -/
theorem proxy_unreachable_or_timeout_witness :
    (handleRequest noFiles reqChat
        (.urlError "[Errno 111] Connection refused")).1 =
      mkJsonResponse 503
        (jsonDumpsErr "Service unavailable"
          (urlErrorStr "[Errno 111] Connection refused")) ∧
    (handleRequest noFiles reqChat .timeoutError).1 =
      mkJsonResponse 500 (jsonDumpsErr "Internal server error" "timed out") :=
  proxy_unreachable_or_timeout noFiles reqChat "17" 17
    "[Errno 111] Connection refused" rfl rfl rfl rfl

/-- C5: for every POST to `/api/chat` that reaches the upstream call, the
outbound request is a POST to the fixed `FLOWISE_API` URL whose only header
is `Content-Type: application/json` and whose data is exactly the
`Content-Length` bytes read from the inbound body, forwarded verbatim. -/
theorem outbound_request_shape (fs : String → Option StaticFile) (req : Request)
    (up : UpstreamOutcome) (s : String) (n : Int)
    (hm : req.method = .POST) (hp : req.path = "/api/chat")
    (hcl : req.contentLength = some s) (hn : pyIntOfString s = some n) :
    (handleRequest fs req up).2 =
      some { url := FLOWISE_API
             httpMethod := "POST"
             headers := [("Content-Type", "application/json")]
             data := readBody n req.body } := by
  cases up <;>
    simp [handleRequest, hm, hp, proxy_to_flowise, contentLengthVal, hcl, hn]

/-- Witness for C5 at the spec's example request. -/
theorem outbound_request_shape_witness :
    (handleRequest noFiles reqChat (.ok upBodyHello)).2 =
      some { url := FLOWISE_API
             httpMethod := "POST"
             headers := [("Content-Type", "application/json")]
             data := readBody 17 reqChat.body } :=
  outbound_request_shape noFiles reqChat (.ok upBodyHello) "17" 17 rfl rfl rfl rfl

/-- C7: for every POST to `/api/chat` whose `Content-Length` header is
missing or not parseable as an integer, no outbound upstream request is
built and the response is 500 with a JSON body whose `error` is
`"Internal server error"` and whose `details` is the string form of the
raised exception. -/
theorem framing_error_500 (fs : String → Option StaticFile) (req : Request)
    (up : UpstreamOutcome) (msg : String)
    (hm : req.method = .POST) (hp : req.path = "/api/chat")
    (hcl : contentLengthVal req.contentLength = .error msg) :
    handleRequest fs req up =
      (mkJsonResponse 500 (jsonDumpsErr "Internal server error" msg), none) := by
  simp [handleRequest, hm, hp, proxy_to_flowise, hcl]

/-- Witness for C7 at a chat request with no `Content-Length` header. -/
theorem framing_error_500_witness :
    handleRequest noFiles
        { method := .POST, path := "/api/chat", contentLength := none, body := [] }
        (.ok []) =
      (mkJsonResponse 500 (jsonDumpsErr "Internal server error" typeErrorNoneMsg),
        none) :=
  framing_error_500 noFiles
    { method := .POST, path := "/api/chat", contentLength := none, body := [] }
    (.ok []) typeErrorNoneMsg rfl rfl rfl

/-- C4: every response emitted by the server — preflight, proxy success,
every proxy error response, the 404 routing miss, and the delegated static
file path — carries all three CORS headers. -/
theorem cors_on_every_response (fs : String → Option StaticFile) (req : Request)
    (up : UpstreamOutcome) : hasCors (handleRequest fs req up).1 := by
  cases hm : req.method
  · simp [handleRequest, hm, do_OPTIONS, hasCors, corsHeaders]
  · by_cases hp : req.path = "/api/chat"
    · simp only [handleRequest, hm, if_pos hp]
      cases hcl : contentLengthVal req.contentLength
      · simp [proxy_to_flowise, hcl, mkJsonResponse, hasCors, corsHeaders]
      · cases up <;>
          simp [proxy_to_flowise, hcl, mkJsonResponse, hasCors, corsHeaders]
    · simp [handleRequest, hm, if_neg hp, notFoundResponse, send_error, hasCors,
        corsHeaders]
  · cases hf : fs req.path <;>
      simp [handleRequest, hm, serveStatic, hf, send_error, hasCors, corsHeaders]

/-- Counterexample to C6 as stated: on POST to `/api/other` the code calls
`send_error(404)`, which does write a body (the standard HTML error page),
so the response is 404 but its body is not empty. -/
theorem post_miss_has_body :
    (handleRequest noFiles
        { method := .POST, path := "/api/other", contentLength := none, body := [] }
        (.ok [])).1.status = 404 ∧
    (handleRequest noFiles
        { method := .POST, path := "/api/other", contentLength := none, body := [] }
        (.ok [])).1.body ≠ [] := by
  constructor
  · rfl
  · decide

/-- C6 (amended): for every POST whose path is not `/api/chat`, the server
responds 404 with the library's standard HTML error page as body, the CORS
headers still attached, and no upstream interaction occurs. -/
theorem post_miss_404 (fs : String → Option StaticFile) (req : Request)
    (up : UpstreamOutcome) (hm : req.method = .POST)
    (hp : req.path ≠ "/api/chat") :
    (handleRequest fs req up).2 = none ∧
    (handleRequest fs req up).1.status = 404 ∧
    (handleRequest fs req up).1.body =
      strToBytes (errorPageBody 404 "Not Found" "Nothing matches the given URI") ∧
    hasCors (handleRequest fs req up).1 := by
  have h : handleRequest fs req up = (notFoundResponse, none) := by
    simp [handleRequest, hm, if_neg hp]
  rw [h]
  refine ⟨rfl, rfl, rfl, ?_⟩
  simp [notFoundResponse, send_error, hasCors, corsHeaders]

/-- Witness for C6 (amended) at a concrete POST to `/api/other`. -/
theorem post_miss_404_witness :
    (handleRequest noFiles
        { method := .POST, path := "/api/other", contentLength := none, body := [] }
        (.ok [])).2 = none ∧
    (handleRequest noFiles
        { method := .POST, path := "/api/other", contentLength := none, body := [] }
        (.ok [])).1.status = 404 ∧
    (handleRequest noFiles
        { method := .POST, path := "/api/other", contentLength := none, body := [] }
        (.ok [])).1.body =
      strToBytes (errorPageBody 404 "Not Found" "Nothing matches the given URI") ∧
    hasCors (handleRequest noFiles
        { method := .POST, path := "/api/other", contentLength := none, body := [] }
        (.ok [])).1 :=
  post_miss_404 noFiles
    { method := .POST, path := "/api/other", contentLength := none, body := [] }
    (.ok []) rfl (by decide)

/-- A hexadecimal digit character produced by `hexDigitChar` on a value
below 16 satisfies `isHexChar`. -/
theorem isHexChar_hexDigitChar (m : Nat) (h : m < 16) :
    isHexChar (hexDigitChar m) = true := by
  interval_cases m <;> decide

/-- Version of `isHexChar_hexDigitChar` keyed on the reduced argument
shape that `toHex4` produces. -/
theorem isHexChar_hexDigitChar_mod (n : Nat) :
    isHexChar (hexDigitChar (n % 16)) = true :=
  isHexChar_hexDigitChar _ (Nat.mod_lt _ (by norm_num))

/-- Consuming the escape of one character from a JSON string literal body
leaves the recognizer exactly where it was. -/
theorem chkStrBody_escape (c : Char) (t : List Char) :
    chkStrBodyM .normal (jsonEscapeChar c ++ t) = chkStrBodyM .normal t := by
  by_cases h1 : c = '"'
  · simp [jsonEscapeChar, h1, chkStrBodyM]
  by_cases h2 : c = '\\'
  · simp [jsonEscapeChar, h1, h2, chkStrBodyM]
  by_cases h3 : c = Char.ofNat 8
  · simp [jsonEscapeChar, h1, h2, h3, chkStrBodyM]
  by_cases h4 : c = Char.ofNat 9
  · simp [jsonEscapeChar, h1, h2, h3, h4, chkStrBodyM]
  by_cases h5 : c = Char.ofNat 10
  · simp [jsonEscapeChar, h1, h2, h3, h4, h5, chkStrBodyM]
  by_cases h6 : c = Char.ofNat 12
  · simp [jsonEscapeChar, h1, h2, h3, h4, h5, h6, chkStrBodyM]
  by_cases h7 : c = Char.ofNat 13
  · simp [jsonEscapeChar, h1, h2, h3, h4, h5, h6, h7, chkStrBodyM]
  by_cases h8 : c.toNat < 0x20 ∨ 0x7e < c.toNat
  · by_cases h9 : c.toNat ≤ 0xffff
    · simp [jsonEscapeChar, h1, h2, h3, h4, h5, h6, h7, h8, h9, toHex4,
        chkStrBodyM, isHexChar_hexDigitChar_mod]
    · simp [jsonEscapeChar, h1, h2, h3, h4, h5, h6, h7, h8, h9, toHex4,
        chkStrBodyM, isHexChar_hexDigitChar_mod]
  · have hge : 0x20 ≤ c.toNat := by
      push_neg at h8
      exact h8.1
    simp [jsonEscapeChar, h1, h2, h3, h4, h5, h6, h7, h8, chkStrBodyM, hge]

/-- The recognizer accepts the full escaped body of any string followed by
its closing quote, and returns the rest of the input. -/
theorem chkStrBody_flatMap (cs : List Char) (t : List Char) :
    chkStrBodyM .normal (cs.flatMap jsonEscapeChar ++ '"' :: t) = some t := by
  induction cs with
  | nil => simp [chkStrBodyM]
  | cons c rest ih =>
    simp only [List.flatMap_cons, List.append_assoc]
    rw [chkStrBody_escape]
    exact ih

/-- Stripping an expected sequence off input that starts with exactly that
sequence returns the remainder. -/
theorem stripPre_append (p r : List Char) : stripPre p (p ++ r) = some r := by
  induction p with
  | nil => rfl
  | cons c cs ih => simp [stripPre, ih]

/-- Every serialization the error paths produce is accepted by the JSON
object checker: it is valid JSON with exactly the keys `error` and
`details` holding string values. -/
theorem isErrDetailsJson_jsonDumpsErr (e d : String) :
    isErrDetailsJson (jsonDumpsErr e d) = true := by
  have hdata : (jsonDumpsErr e d).data =
      errHead ++ (e.data.flatMap jsonEscapeChar ++ '"' ::
        (detailsMid ++ (d.data.flatMap jsonEscapeChar ++ '"' :: [rbrace]))) := by
    show errHead ++ jsonStrBody e ++ '"' :: detailsMid ++ jsonStrBody d ++
      ['"', rbrace] = _
    simp [jsonStrBody]
  simp only [isErrDetailsJson, hdata, chkStrBody, Option.bind_eq_bind,
    Option.some_bind, stripPre_append, chkStrBody_flatMap]
  simp [stripPre]

/-- C9: on every failure path of the chat proxy (framing failure, upstream
HTTP error, upstream unreachable, or any other exception), the response
body is the serialization of a JSON object with exactly the two string
members `error` and `details`, and that serialization is valid JSON even
when the details are arbitrary non-JSON text. -/
theorem error_payload_always_json (fs : String → Option StaticFile) (req : Request)
    (up : UpstreamOutcome)
    (hm : req.method = .POST) (hp : req.path = "/api/chat")
    (hfail : (framingOk req.contentLength && up.isOk) = false) :
    ∃ e d, (handleRequest fs req up).1.body = strToBytes (jsonDumpsErr e d) ∧
      isErrDetailsJson (jsonDumpsErr e d) = true := by
  cases hcl : contentLengthVal req.contentLength with
  | error msg =>
    refine ⟨"Internal server error", msg, ?_, isErrDetailsJson_jsonDumpsErr _ _⟩
    simp [handleRequest, hm, hp, proxy_to_flowise, hcl, mkJsonResponse]
  | ok n =>
    cases up with
    | ok body =>
      exfalso
      simp [framingOk, hcl, UpstreamOutcome.isOk] at hfail
    | httpError code reason ebody =>
      refine ⟨httpErrorStr code reason, String.mk (utf8DecodeIgnore ebody), ?_,
        isErrDetailsJson_jsonDumpsErr _ _⟩
      simp [handleRequest, hm, hp, proxy_to_flowise, hcl, mkJsonResponse]
    | urlError reason =>
      refine ⟨"Service unavailable", urlErrorStr reason, ?_,
        isErrDetailsJson_jsonDumpsErr _ _⟩
      simp [handleRequest, hm, hp, proxy_to_flowise, hcl, mkJsonResponse]
    | timeoutError =>
      refine ⟨"Internal server error", "timed out", ?_,
        isErrDetailsJson_jsonDumpsErr _ _⟩
      simp [handleRequest, hm, hp, proxy_to_flowise, hcl, mkJsonResponse]
    | exc msg =>
      refine ⟨"Internal server error", msg, ?_, isErrDetailsJson_jsonDumpsErr _ _⟩
      simp [handleRequest, hm, hp, proxy_to_flowise, hcl, mkJsonResponse]

/-- Witness for C9 at a concrete upstream HTTP error. -/
theorem error_payload_always_json_witness :
    ∃ e d, (handleRequest noFiles reqChat
        (.httpError 429 "Too Many Requests"
          (strToBytes "\x7b\"msg\":\"rate limited\"\x7d"))).1.body =
      strToBytes (jsonDumpsErr e d) ∧
      isErrDetailsJson (jsonDumpsErr e d) = true :=
  error_payload_always_json noFiles reqChat
    (.httpError 429 "Too Many Requests" (strToBytes "\x7b\"msg\":\"rate limited\"\x7d"))
    rfl rfl (by decide)

/-- The sequential accept loop is a per-request map: no state flows from
one request to the next. -/
theorem serveAll_map (fs : String → Option StaticFile)
    (l : List (Request × UpstreamOutcome)) :
    serveAll fs l = l.map fun p => handleRequest fs p.1 p.2 := by
  induction l with
  | nil => rfl
  | cons p rest ih =>
    cases p
    simp [serveAll, ih]

/-- C10: handling is deterministic and accumulates no hidden state across
requests — the response to a request against a given upstream outcome is
the same after any two prior request histories, and equals the pure
per-request handler output. -/
theorem request_handling_deterministic (fs : String → Option StaticFile)
    (h1 h2 : List (Request × UpstreamOutcome)) (r : Request) (u : UpstreamOutcome) :
    (serveAll fs (h1 ++ [(r, u)])).getLast? =
      (serveAll fs (h2 ++ [(r, u)])).getLast? ∧
    (serveAll fs (h1 ++ [(r, u)])).getLast? = some (handleRequest fs r u) := by
  have key : ∀ h : List (Request × UpstreamOutcome),
      (serveAll fs (h ++ [(r, u)])).getLast? = some (handleRequest fs r u) := by
    intro h
    rw [serveAll_map, List.map_append]
    simp
  exact ⟨(key h1).trans (key h2).symm, key h1⟩

end ChatUI
